import Mathlib

/-!
Shallow embedding of the vuls database-client acquisition / release code
(`detector` package: `NewDBClient`, the five per-resource factories
`NewCveDB`, `NewOvalDB`, `NewGostDB`, `NewExploitDB`, `NewMetasploitDB`,
and `DBClient.CloseDB`), and of `reporter/azureblob.go`
(`AzureBlobWriter.Write`).

Modelling choices:
* The five external driver libraries (`cvedb.NewDB`, `ovaldb.NewDB`, ...)
  and `os.Stat` are the environment: an `Env` records, for each resource
  kind, whether the configured sqlite3 file exists and what the external
  `NewDB` call would return (a possibly-nil driver handle, a locked flag,
  and a possibly-nil error).
* Go errors are modelled as `Option String`; `xerrors.Errorf` wrapping is
  rendered by string concatenation following the format strings of the
  source.
* A driver handle is identified by its resource kind (at most one handle
  per kind per run).
* Observable side effects are instrumented: each factory output records
  whether the external `NewDB` open was invoked (`attempted`), and the
  orchestrator output records logged warnings, attempted opens, handles
  obtained, and close operations performed before returning.
-/

/-- The five knowledge-base resource kinds. -/
inductive Kind where
  | cve
  | oval
  | gost
  | exploit
  | metasploit
deriving Repr, DecidableEq, Fintype

/-- Per-resource configuration slice: the fields of `config.GoCveDictConf`,
`config.GovalDictConf`, `config.GostConf`, `config.ExploitConf`,
`config.MetasploitConf` that the shown code reads (`IsFetchViaHTTP()`,
`Type`, `URL`, `SQLite3Path`). -/
structure VulnDictCnf where
  fetchViaHTTP : Bool
  typ : String
  url : String
  sqlite3Path : String
deriving Repr, DecidableEq

/-- `DBClientConf`: configuration of the five vulnerability DBs. -/
structure DBClientConf where
  cveDictCnf : VulnDictCnf
  ovalDictCnf : VulnDictCnf
  gostCnf : VulnDictCnf
  exploitCnf : VulnDictCnf
  metasploitCnf : VulnDictCnf
  debugSQL : Bool
deriving Repr, DecidableEq

/-- Result of an external driver `NewDB` call:
`(driver, locked, err)` with the driver handle abstracted to the Bool
`driver` (whether a non-nil handle was returned). -/
structure DrvRes where
  driver : Bool
  locked : Bool
  err : Option String
deriving Repr, DecidableEq

/-- Environment of one resource: the `os.Stat` existence of its sqlite3
path, and the outcome the external `NewDB` would produce if invoked. -/
structure ResEnv where
  fileExists : Bool
  newDB : DrvRes
deriving Repr, DecidableEq

/-- The whole environment: one `ResEnv` per resource kind. -/
structure Env where
  cve : ResEnv
  oval : ResEnv
  gost : ResEnv
  exploit : ResEnv
  metasploit : ResEnv
deriving Repr, DecidableEq

/-- Output of a per-resource factory (`NewCveDB` etc.): the Go return
triple `(driver, locked, err)` plus the instrumentation bit `attempted`
recording whether the external `NewDB` open was invoked. -/
structure FactoryOut where
  driver : Option Kind
  locked : Bool
  err : Option String
  attempted : Bool
deriving Repr, DecidableEq

/-- `NewCveDB`: open the go-cve-dictionary driver.  Skips when fetching
via HTTP; for sqlite3, a missing file yields `(nil, false, nil)` after a
warning; otherwise the external open runs and a non-nil error is wrapped
with the path. -/
def NewCveDB (cnf : DBClientConf) (env : Env) : FactoryOut :=
  if cnf.cveDictCnf.fetchViaHTTP then ⟨none, false, none, false⟩
  else if cnf.cveDictCnf.typ == "sqlite3" && !env.cve.fileExists then
    ⟨none, false, none, false⟩
  else
    match env.cve.newDB.err with
    | some e =>
        ⟨none, env.cve.newDB.locked,
         some ("Failed to init CVE DB. err: " ++ e ++ ", path: " ++
               (if cnf.cveDictCnf.typ == "sqlite3" then cnf.cveDictCnf.sqlite3Path
                else cnf.cveDictCnf.url)), true⟩
    | none => ⟨if env.cve.newDB.driver then some Kind.cve else none, false, none, true⟩

/-- `NewOvalDB`: open the goval-dictionary driver.  On a non-nil error the
error is wrapped and the locked flag forwarded; on success the locked flag
is reset to false. -/
def NewOvalDB (cnf : DBClientConf) (env : Env) : FactoryOut :=
  if cnf.ovalDictCnf.fetchViaHTTP then ⟨none, false, none, false⟩
  else if cnf.ovalDictCnf.typ == "sqlite3" && !env.oval.fileExists then
    ⟨none, false, none, false⟩
  else
    match env.oval.newDB.err with
    | some e =>
        if env.oval.newDB.locked then
          ⟨none, true, some ("Failed to new OVAL DB. err: " ++ e), true⟩
        else ⟨none, false, some ("Failed to new OVAL DB. err: " ++ e), true⟩
    | none => ⟨if env.oval.newDB.driver then some Kind.oval else none, false, none, true⟩

/-- `NewGostDB`: open the gost driver.  On a non-nil error with the locked
flag the error is wrapped as a locked message; a plain error is returned
as-is. -/
def NewGostDB (cnf : DBClientConf) (env : Env) : FactoryOut :=
  if cnf.gostCnf.fetchViaHTTP then ⟨none, false, none, false⟩
  else if cnf.gostCnf.typ == "sqlite3" && !env.gost.fileExists then
    ⟨none, false, none, false⟩
  else
    match env.gost.newDB.err with
    | some e =>
        if env.gost.newDB.locked then
          ⟨none, true, some ("gostDB is locked. err: " ++ e), true⟩
        else ⟨none, false, some e, true⟩
    | none => ⟨if env.gost.newDB.driver then some Kind.gost else none, false, none, true⟩

/-- `NewExploitDB`: open the go-exploitdb driver (same shape as
`NewGostDB`). -/
def NewExploitDB (cnf : DBClientConf) (env : Env) : FactoryOut :=
  if cnf.exploitCnf.fetchViaHTTP then ⟨none, false, none, false⟩
  else if cnf.exploitCnf.typ == "sqlite3" && !env.exploit.fileExists then
    ⟨none, false, none, false⟩
  else
    match env.exploit.newDB.err with
    | some e =>
        if env.exploit.newDB.locked then
          ⟨none, true, some ("exploitDB is locked. err: " ++ e), true⟩
        else ⟨none, false, some e, true⟩
    | none =>
        ⟨if env.exploit.newDB.driver then some Kind.exploit else none, false, none, true⟩

/-- `NewMetasploitDB`: open the go-msfdb driver (same shape as
`NewGostDB`). -/
def NewMetasploitDB (cnf : DBClientConf) (env : Env) : FactoryOut :=
  if cnf.metasploitCnf.fetchViaHTTP then ⟨none, false, none, false⟩
  else if cnf.metasploitCnf.typ == "sqlite3" && !env.metasploit.fileExists then
    ⟨none, false, none, false⟩
  else
    match env.metasploit.newDB.err with
    | some e =>
        if env.metasploit.newDB.locked then
          ⟨none, true, some ("metasploitDB is locked. err: " ++ e), true⟩
        else ⟨none, false, some e, true⟩
    | none =>
        ⟨if env.metasploit.newDB.driver then some Kind.metasploit else none, false, none,
         true⟩

/-- Dispatch: the per-resource factory of each kind. -/
def openResource (k : Kind) (cnf : DBClientConf) (env : Env) : FactoryOut :=
  match k with
  | Kind.cve => NewCveDB cnf env
  | Kind.oval => NewOvalDB cnf env
  | Kind.gost => NewGostDB cnf env
  | Kind.exploit => NewExploitDB cnf env
  | Kind.metasploit => NewMetasploitDB cnf env

/-- Configuration slice of each kind. -/
def resCnf (k : Kind) (cnf : DBClientConf) : VulnDictCnf :=
  match k with
  | Kind.cve => cnf.cveDictCnf
  | Kind.oval => cnf.ovalDictCnf
  | Kind.gost => cnf.gostCnf
  | Kind.exploit => cnf.exploitCnf
  | Kind.metasploit => cnf.metasploitCnf

/-- Environment slice of each kind. -/
def resEnv (k : Kind) (env : Env) : ResEnv :=
  match k with
  | Kind.cve => env.cve
  | Kind.oval => env.oval
  | Kind.gost => env.gost
  | Kind.exploit => env.exploit
  | Kind.metasploit => env.metasploit

/-- The four Optional resource kinds, in acquisition order. -/
def optionalKinds : List Kind :=
  [Kind.oval, Kind.gost, Kind.exploit, Kind.metasploit]

/-- All five resource kinds in the acquisition order of `NewDBClient`. -/
def allKinds : List Kind :=
  [Kind.cve, Kind.oval, Kind.gost, Kind.exploit, Kind.metasploit]

/-- `DBClient`: the bundle of the five driver handles (each nil or a
handle, identified here by its kind). -/
structure DBClient where
  CveDB : Option Kind
  OvalDB : Option Kind
  GostDB : Option Kind
  ExploitDB : Option Kind
  MetasploitDB : Option Kind
deriving Repr, DecidableEq

/-- The bundle slot of a given kind. -/
def slotOf (d : DBClient) (k : Kind) : Option Kind :=
  match k with
  | Kind.cve => d.CveDB
  | Kind.oval => d.OvalDB
  | Kind.gost => d.GostDB
  | Kind.exploit => d.ExploitDB
  | Kind.metasploit => d.MetasploitDB

/-- Instrumentation of the factory: the attempted-open events it
contributes (`[k]` if the external open was invoked, else `[]`). -/
def attOf (f : FactoryOut) (k : Kind) : List Kind :=
  if f.attempted then [k] else []

/-- Instrumentation of the factory: the handles it hands back
(`[k]` if it returned a non-nil driver, else `[]`). -/
def hndOf (f : FactoryOut) : List Kind :=
  f.driver.toList

/-- Output of `NewDBClient`: the Go return triple
`(dbclient, locked, err)` together with the instrumented observable
side effects of the run: warnings logged (by kind), external opens
attempted, driver handles obtained, and close operations performed
before returning.  The source contains no close call anywhere in
`NewDBClient`, so `closes` is `[]` on every path — the field records
exactly that absence. -/
structure AcqOut where
  dbclient : Option DBClient
  locked : Bool
  err : Option String
  warns : List Kind
  attempts : List Kind
  openedHandles : List Kind
  closes : List Kind
deriving Repr, DecidableEq

/-- `NewDBClient`: drive the five factories in order.  A locked outcome
anywhere aborts with a Locked error (note: the CveDB locked message
formats `cnf.OvalDictCnf.SQLite3Path`, exactly as the source does); a
non-locked error aborts only for the CVE dictionary and is logged as a
warning for the four optional resources. -/
def NewDBClient (cnf : DBClientConf) (env : Env) : AcqOut :=
  let c := NewCveDB cnf env
  let aC := attOf c Kind.cve
  let hC := hndOf c
  if c.locked then
    ⟨none, true, some ("CveDB is locked: " ++ cnf.ovalDictCnf.sqlite3Path),
     [], aC, hC, []⟩
  else if c.err.isSome then
    ⟨none, c.locked, c.err, [], aC, hC, []⟩
  else
    let o := NewOvalDB cnf env
    let aO := aC ++ attOf o Kind.oval
    let hO := hC ++ hndOf o
    if o.locked then
      ⟨none, true, some ("OvalDB is locked: " ++ cnf.ovalDictCnf.sqlite3Path),
       [], aO, hO, []⟩
    else
      let wO : List Kind := if o.err.isSome then [Kind.oval] else []
      let g := NewGostDB cnf env
      let aG := aO ++ attOf g Kind.gost
      let hG := hO ++ hndOf g
      if g.locked then
        ⟨none, true, some ("gostDB is locked: " ++ cnf.gostCnf.sqlite3Path),
         wO, aG, hG, []⟩
      else
        let wG : List Kind := wO ++ (if g.err.isSome then [Kind.gost] else [])
        let e := NewExploitDB cnf env
        let aE := aG ++ attOf e Kind.exploit
        let hE := hG ++ hndOf e
        if e.locked then
          ⟨none, true, some ("exploitDB is locked: " ++ cnf.exploitCnf.sqlite3Path),
           wG, aE, hE, []⟩
        else
          let wE : List Kind := wG ++ (if e.err.isSome then [Kind.exploit] else [])
          let m := NewMetasploitDB cnf env
          let aM := aE ++ attOf m Kind.metasploit
          let hM := hE ++ hndOf m
          if m.locked then
            ⟨none, true,
             some ("metasploitDB is locked: " ++ cnf.metasploitCnf.sqlite3Path),
             wE, aM, hM, []⟩
          else
            let wM : List Kind := wE ++ (if m.err.isSome then [Kind.metasploit] else [])
            ⟨some ⟨c.driver, o.driver, g.driver, e.driver, m.driver⟩,
             false, none, wM, aM, hM, []⟩

/-- Whether the run of `NewDBClient` reaches the stage of kind `k`
(i.e. invokes that factory): the CVE stage always runs; each later stage
runs iff no earlier stage aborted (a lock anywhere, or any error on the
critical CVE stage). -/
def reached (k : Kind) (cnf : DBClientConf) (env : Env) : Bool :=
  let cveOK := !(NewCveDB cnf env).locked && !(NewCveDB cnf env).err.isSome
  let ovalOK := cveOK && !(NewOvalDB cnf env).locked
  let gostOK := ovalOK && !(NewGostDB cnf env).locked
  let exploitOK := gostOK && !(NewExploitDB cnf env).locked
  match k with
  | Kind.cve => true
  | Kind.oval => cveOK
  | Kind.gost => ovalOK
  | Kind.exploit => gostOK
  | Kind.metasploit => exploitOK

/-- Per-handle close environment: the error the external `CloseDB` of
each driver would return. -/
structure CloseEnv where
  cveClose : Option String
  ovalClose : Option String
  gostClose : Option String
  exploitClose : Option String
  metasploitClose : Option String
deriving Repr, DecidableEq

/-- Output of `DBClient.CloseDB`: the aggregated error list, the close
attempts performed (in order), and the client value after the call.  The
Go method has a value receiver and never reassigns any field, so the
client after the call is the client before it. -/
structure CloseOut where
  errs : List String
  closeAttempts : List Kind
  client : DBClient
deriving Repr, DecidableEq

/-- `DBClient.CloseDB`: closes `CveDB` and `OvalDB` when non-nil,
appending each failure; the gost, exploit and metasploit handles are not
closed (the source marks them with a TODO). -/
def DBClient.CloseDB (d : DBClient) (cenv : CloseEnv) : CloseOut :=
  let eC : List String × List Kind :=
    match d.CveDB with
    | some _ =>
        (match cenv.cveClose with
         | some e => ["Failed to close cveDB. err: " ++ e]
         | none => [], [Kind.cve])
    | none => ([], [])
  let eO : List String × List Kind :=
    match d.OvalDB with
    | some _ =>
        (match cenv.ovalClose with
         | some e => ["Failed to close ovalDB. err: " ++ e]
         | none => [], [Kind.oval])
    | none => ([], [])
  ⟨eC.1 ++ eO.1, eC.2 ++ eO.2, d⟩

/-!
Embedding of `reporter/azureblob.go`.  `models.ScanResult` is abstracted
to the data `Write` reads from it: the RFC3339-formatted scan time, the
report key name, the `json.Marshal` outcome, and the two formatted texts
(produced by the external `formatList` / `formatFullPlainText`).
-/

/-- The slice of `models.ScanResult` read by `AzureBlobWriter.Write`. -/
structure ScanResult where
  scannedAtRFC3339 : String
  reportKeyName : String
  marshalled : Option String
  listText : String
  fullText : String
deriving Repr, DecidableEq

/-- `AzureBlobWriter`: format and compression flags. -/
structure AzureBlobWriter where
  FormatJSON : Bool
  FormatFullText : Bool
  FormatOneLineText : Bool
  FormatList : Bool
  Gzip : Bool
deriving Repr, DecidableEq

/-- Observable side effects of the Azure path: constructing the blob
client and uploading a block blob under a key. -/
inductive AzEvent where
  | getClient
  | upload (key : String)
deriving Repr, DecidableEq

/-- Environment of the Azure path: the container name from global
configuration, the error `getBlobClient` would return, the per-call
outcome of `gz`, the one-line summary the external formatter would
produce, and the per-key error of the blob upload. -/
structure AzureEnv where
  containerName : String
  clientErr : Option String
  gzErr : Option String
  oneLineSummary : String
  uploadErr : String → Option String

/-- `createBlockBlob`: gzip-compress when asked (appending `.gz` to the
key), then upload; an upload failure is wrapped with container and key. -/
def createBlockBlob (env : AzureEnv) (k : String) (gzip : Bool) :
    Option String × List AzEvent :=
  if gzip then
    match env.gzErr with
    | some e => (some e, [])
    | none =>
        let k2 := k ++ ".gz"
        match env.uploadErr k2 with
        | some e =>
            (some ("Failed to upload data to " ++ env.containerName ++ "/" ++ k2 ++
                   ", err: " ++ e), [AzEvent.upload k2])
        | none => (none, [AzEvent.upload k2])
  else
    match env.uploadErr k with
    | some e =>
        (some ("Failed to upload data to " ++ env.containerName ++ "/" ++ k ++
               ", err: " ++ e), [AzEvent.upload k])
    | none => (none, [AzEvent.upload k])

/-- The per-result body of the loop in `Write`: JSON, then short list,
then full text, each uploaded when its flag is set, stopping at the first
error. -/
def writeOne (w : AzureBlobWriter) (env : AzureEnv) (r : ScanResult) :
    Option String × List AzEvent :=
  let key := r.reportKeyName
  let stepJSON : Option String × List AzEvent :=
    if w.FormatJSON then
      match r.marshalled with
      | none => (some "Failed to Marshal to JSON", [])
      | some _ => createBlockBlob env (key ++ ".json") w.Gzip
    else (none, [])
  match stepJSON with
  | (some e, ev) => (some e, ev)
  | (none, ev1) =>
      let stepList : Option String × List AzEvent :=
        if w.FormatList then createBlockBlob env (key ++ "_short.txt") w.Gzip
        else (none, [])
      match stepList with
      | (some e, ev) => (some e, ev1 ++ ev)
      | (none, ev2) =>
          let stepFull : Option String × List AzEvent :=
            if w.FormatFullText then createBlockBlob env (key ++ "_full.txt") w.Gzip
            else (none, [])
          match stepFull with
          | (some e, ev) => (some e, ev1 ++ ev2 ++ ev)
          | (none, ev3) => (none, ev1 ++ ev2 ++ ev3)

/-- The loop over the scan results, stopping at the first error. -/
def writeLoop (w : AzureBlobWriter) (env : AzureEnv) :
    List ScanResult → Option String × List AzEvent
  | [] => (none, [])
  | r :: rest =>
      match writeOne w env r with
      | (some e, ev) => (some e, ev)
      | (none, ev) =>
          let (e2, ev2) := writeLoop w env rest
          (e2, ev ++ ev2)

/-- `AzureBlobWriter.Write`: returns nil at once for an empty result
list; otherwise builds the blob client, uploads the one-line summary when
that flag is set, then runs the per-result loop. -/
def AzureBlobWriter.Write (w : AzureBlobWriter) (env : AzureEnv)
    (rs : List ScanResult) : Option String × List AzEvent :=
  if rs.length = 0 then (none, [])
  else
    match env.clientErr with
    | some e => (some e, [AzEvent.getClient])
    | none =>
        let stepSummary : Option String × List AzEvent :=
          if w.FormatOneLineText then
            match rs with
            | [] => (none, [])
            | r0 :: _ =>
                createBlockBlob env (r0.scannedAtRFC3339 ++ "/summary.txt") w.Gzip
          else (none, [])
        match stepSummary with
        | (some e, ev) => (some e, AzEvent.getClient :: ev)
        | (none, ev1) =>
            let (e2, ev2) := writeLoop w env rs
            (e2, AzEvent.getClient :: (ev1 ++ ev2))

/-!  Concrete fixtures used by the closed theorems and witnesses. -/

/-- A sqlite3-backed per-resource configuration with the given path. -/
def sqliteCnf (p : String) : VulnDictCnf :=
  ⟨false, "sqlite3", "", p⟩

/-- A configuration with all five resources sqlite3-backed, each with a
distinct path. -/
def cnf0 : DBClientConf :=
  ⟨sqliteCnf "/cve.sqlite3", sqliteCnf "/oval.sqlite3", sqliteCnf "/gost.sqlite3",
   sqliteCnf "/exploit.sqlite3", sqliteCnf "/msf.sqlite3", false⟩

/-- Resource environment: file present, open succeeds with a handle. -/
def okRes : ResEnv := ⟨true, ⟨true, false, none⟩⟩

/-- Resource environment: file present, open reports locked (with an
error, as sqlite drivers do). -/
def lockedRes : ResEnv := ⟨true, ⟨false, true, some "database is locked"⟩⟩

/-- Resource environment: file present, open fails without the locked
flag. -/
def failRes : ResEnv := ⟨true, ⟨false, false, some "file is not a database"⟩⟩

/-- Environment in which every resource opens cleanly. -/
def okEnv : Env := ⟨okRes, okRes, okRes, okRes, okRes⟩

/-- Environment in which the CVE dictionary is locked. -/
def envCveLocked : Env := ⟨lockedRes, okRes, okRes, okRes, okRes⟩

/-- Environment in which the OVAL dictionary is locked and everything
else opens cleanly. -/
def envOvalLocked : Env := ⟨okRes, lockedRes, okRes, okRes, okRes⟩

/-- Environment in which the CVE dictionary open fails (not locked). -/
def envCveFail : Env := ⟨failRes, okRes, okRes, okRes, okRes⟩

/-- Environment in which the gost open fails (not locked) and everything
else opens cleanly. -/
def envGostFail : Env := ⟨okRes, okRes, failRes, okRes, okRes⟩

/-- Environment in which the CVE driver reports locked with a nil error
and still hands back a handle. -/
def envCveLockedNilErr : Env := ⟨⟨true, ⟨true, true, none⟩⟩, okRes, okRes, okRes, okRes⟩

/-- A bundle holding all five handles. -/
def fullClient : DBClient :=
  ⟨some Kind.cve, some Kind.oval, some Kind.gost, some Kind.exploit,
   some Kind.metasploit⟩

/-- Close environment in which every close fails. -/
def cenvAllFail : CloseEnv :=
  ⟨some "cve close failed", some "oval close failed", some "gost close failed",
   some "exploit close failed", some "msf close failed"⟩

/-- Close environment in which every close succeeds. -/
def cenvOK : CloseEnv := ⟨none, none, none, none, none⟩

/-- A bundle holding only the CVE handle. -/
def cveOnlyClient : DBClient := ⟨some Kind.cve, none, none, none, none⟩

/-- Environment in which the CVE sqlite3 file is missing and every other
resource opens cleanly. -/
def envCveMissing : Env := ⟨⟨false, ⟨false, false, none⟩⟩, okRes, okRes, okRes, okRes⟩

/-!  Helper lemmas about the five factories. -/

/-- If the external open was invoked and the driver reported locked with a
non-nil error, `NewCveDB` reports locked. -/
theorem NewCveDB_locked_of_drv (cnf : DBClientConf) (env : Env)
    (h2 : env.cve.newDB.locked = true)
    (h3 : env.cve.newDB.err.isSome = true) :
    (NewCveDB cnf env).attempted = true → (NewCveDB cnf env).locked = true := by
  obtain ⟨e, he⟩ := Option.isSome_iff_exists.mp h3
  unfold NewCveDB
  split
  · intro h; simp at h
  · split
    · intro h; simp at h
    · intro _
      simp [he, h2]

/-- If the external open was invoked and the driver reported locked with a
non-nil error, `NewOvalDB` reports locked. -/
theorem NewOvalDB_locked_of_drv (cnf : DBClientConf) (env : Env)
    (h2 : env.oval.newDB.locked = true)
    (h3 : env.oval.newDB.err.isSome = true) :
    (NewOvalDB cnf env).attempted = true → (NewOvalDB cnf env).locked = true := by
  obtain ⟨e, he⟩ := Option.isSome_iff_exists.mp h3
  unfold NewOvalDB
  split
  · intro h; simp at h
  · split
    · intro h; simp at h
    · intro _
      simp [he, h2]

/-- If the external open was invoked and the driver reported locked with a
non-nil error, `NewGostDB` reports locked. -/
theorem NewGostDB_locked_of_drv (cnf : DBClientConf) (env : Env)
    (h2 : env.gost.newDB.locked = true)
    (h3 : env.gost.newDB.err.isSome = true) :
    (NewGostDB cnf env).attempted = true → (NewGostDB cnf env).locked = true := by
  obtain ⟨e, he⟩ := Option.isSome_iff_exists.mp h3
  unfold NewGostDB
  split
  · intro h; simp at h
  · split
    · intro h; simp at h
    · intro _
      simp [he, h2]

/-- If the external open was invoked and the driver reported locked with a
non-nil error, `NewExploitDB` reports locked. -/
theorem NewExploitDB_locked_of_drv (cnf : DBClientConf) (env : Env)
    (h2 : env.exploit.newDB.locked = true)
    (h3 : env.exploit.newDB.err.isSome = true) :
    (NewExploitDB cnf env).attempted = true → (NewExploitDB cnf env).locked = true := by
  obtain ⟨e, he⟩ := Option.isSome_iff_exists.mp h3
  unfold NewExploitDB
  split
  · intro h; simp at h
  · split
    · intro h; simp at h
    · intro _
      simp [he, h2]

/-- If the external open was invoked and the driver reported locked with a
non-nil error, `NewMetasploitDB` reports locked. -/
theorem NewMetasploitDB_locked_of_drv (cnf : DBClientConf) (env : Env)
    (h2 : env.metasploit.newDB.locked = true)
    (h3 : env.metasploit.newDB.err.isSome = true) :
    (NewMetasploitDB cnf env).attempted = true →
    (NewMetasploitDB cnf env).locked = true := by
  obtain ⟨e, he⟩ := Option.isSome_iff_exists.mp h3
  unfold NewMetasploitDB
  split
  · intro h; simp at h
  · split
    · intro h; simp at h
    · intro _
      simp [he, h2]

/-- A `NewCveDB` error implies the external open was invoked. -/
theorem NewCveDB_attempted_of_err (cnf : DBClientConf) (env : Env) :
    (NewCveDB cnf env).err.isSome = true → (NewCveDB cnf env).attempted = true := by
  unfold NewCveDB
  split
  · intro h; simp at h
  · split
    · intro h; simp at h
    · intro _
      cases henv : env.cve.newDB.err <;> simp

/-- A `NewOvalDB` error implies it returned a nil driver. -/
theorem NewOvalDB_driver_none_of_err (cnf : DBClientConf) (env : Env) :
    (NewOvalDB cnf env).err.isSome = true → (NewOvalDB cnf env).driver = none := by
  unfold NewOvalDB
  split
  · intro h; simp at h
  · split
    · intro h; simp at h
    · cases henv : env.oval.newDB.err
      · intro h; simp at h
      · intro _
        simp only [henv]
        split <;> rfl

/-- A `NewGostDB` error implies it returned a nil driver. -/
theorem NewGostDB_driver_none_of_err (cnf : DBClientConf) (env : Env) :
    (NewGostDB cnf env).err.isSome = true → (NewGostDB cnf env).driver = none := by
  unfold NewGostDB
  split
  · intro h; simp at h
  · split
    · intro h; simp at h
    · cases henv : env.gost.newDB.err
      · intro h; simp at h
      · intro _
        simp only [henv]
        split <;> rfl

/-- A `NewExploitDB` error implies it returned a nil driver. -/
theorem NewExploitDB_driver_none_of_err (cnf : DBClientConf) (env : Env) :
    (NewExploitDB cnf env).err.isSome = true → (NewExploitDB cnf env).driver = none := by
  unfold NewExploitDB
  split
  · intro h; simp at h
  · split
    · intro h; simp at h
    · cases henv : env.exploit.newDB.err
      · intro h; simp at h
      · intro _
        simp only [henv]
        split <;> rfl

/-- A `NewMetasploitDB` error implies it returned a nil driver. -/
theorem NewMetasploitDB_driver_none_of_err (cnf : DBClientConf) (env : Env) :
    (NewMetasploitDB cnf env).err.isSome = true →
    (NewMetasploitDB cnf env).driver = none := by
  unfold NewMetasploitDB
  split
  · intro h; simp at h
  · split
    · intro h; simp at h
    · cases henv : env.metasploit.newDB.err
      · intro h; simp at h
      · intro _
        simp only [henv]
        split <;> rfl

/-- `NewCveDB` on a missing sqlite3 file: Absent, not attempted. -/
theorem NewCveDB_absent (cnf : DBClientConf) (env : Env)
    (h1 : cnf.cveDictCnf.fetchViaHTTP = false)
    (h2 : cnf.cveDictCnf.typ = "sqlite3")
    (h3 : env.cve.fileExists = false) :
    NewCveDB cnf env = ⟨none, false, none, false⟩ := by
  unfold NewCveDB
  simp [h1, h2, h3]

/-- `NewOvalDB` on a missing sqlite3 file: Absent, not attempted. -/
theorem NewOvalDB_absent (cnf : DBClientConf) (env : Env)
    (h1 : cnf.ovalDictCnf.fetchViaHTTP = false)
    (h2 : cnf.ovalDictCnf.typ = "sqlite3")
    (h3 : env.oval.fileExists = false) :
    NewOvalDB cnf env = ⟨none, false, none, false⟩ := by
  unfold NewOvalDB
  simp [h1, h2, h3]

/-- `NewGostDB` on a missing sqlite3 file: Absent, not attempted. -/
theorem NewGostDB_absent (cnf : DBClientConf) (env : Env)
    (h1 : cnf.gostCnf.fetchViaHTTP = false)
    (h2 : cnf.gostCnf.typ = "sqlite3")
    (h3 : env.gost.fileExists = false) :
    NewGostDB cnf env = ⟨none, false, none, false⟩ := by
  unfold NewGostDB
  simp [h1, h2, h3]

/-- `NewExploitDB` on a missing sqlite3 file: Absent, not attempted. -/
theorem NewExploitDB_absent (cnf : DBClientConf) (env : Env)
    (h1 : cnf.exploitCnf.fetchViaHTTP = false)
    (h2 : cnf.exploitCnf.typ = "sqlite3")
    (h3 : env.exploit.fileExists = false) :
    NewExploitDB cnf env = ⟨none, false, none, false⟩ := by
  unfold NewExploitDB
  simp [h1, h2, h3]

/-- `NewMetasploitDB` on a missing sqlite3 file: Absent, not attempted. -/
theorem NewMetasploitDB_absent (cnf : DBClientConf) (env : Env)
    (h1 : cnf.metasploitCnf.fetchViaHTTP = false)
    (h2 : cnf.metasploitCnf.typ = "sqlite3")
    (h3 : env.metasploit.fileExists = false) :
    NewMetasploitDB cnf env = ⟨none, false, none, false⟩ := by
  unfold NewMetasploitDB
  simp [h1, h2, h3]

/-- C1: the claim says that when an open aborts the run (here: the OVAL
dictionary is locked after the CVE handle was obtained), `NewDBClient`
releases every handle opened earlier before returning the error.  The
code performs no close operation on any path: at this input the run
aborts with an error while the CVE handle is held open and the list of
close operations is empty. -/
theorem C1_abort_performs_no_release :
    (NewDBClient cnf0 envOvalLocked).err.isSome = true ∧
    (NewDBClient cnf0 envOvalLocked).dbclient = none ∧
    (NewDBClient cnf0 envOvalLocked).openedHandles = [Kind.cve] ∧
    (NewDBClient cnf0 envOvalLocked).closes = [] := by decide

/-- C2: the claim says a Locked error names the resource and that
resource's own path.  When the CVE dictionary is locked, the code formats
`cnf.OvalDictCnf.SQLite3Path` into the message, not the CVE dictionary's
configured path: at this input the message carries the OVAL path even
though the two paths differ. -/
theorem C2_cve_locked_message_uses_oval_path :
    (NewDBClient cnf0 envCveLocked).locked = true ∧
    (NewDBClient cnf0 envCveLocked).err =
      some ("CveDB is locked: " ++ cnf0.ovalDictCnf.sqlite3Path) ∧
    cnf0.ovalDictCnf.sqlite3Path ≠ cnf0.cveDictCnf.sqlite3Path := by decide

/-- C7: the claim says `CloseDB` attempts to close every one of the five
slots holding a handle.  On a bundle holding all five handles, with every
close failing, the code attempts only the CVE and OVAL closes (the other
three kinds are marked TODO in the source) and returns exactly those two
failures. -/
theorem C7_close_covers_only_cve_and_oval :
    (DBClient.CloseDB fullClient cenvAllFail).closeAttempts = [Kind.cve, Kind.oval] ∧
    Kind.gost ∉ (DBClient.CloseDB fullClient cenvAllFail).closeAttempts ∧
    Kind.exploit ∉ (DBClient.CloseDB fullClient cenvAllFail).closeAttempts ∧
    Kind.metasploit ∉ (DBClient.CloseDB fullClient cenvAllFail).closeAttempts ∧
    (DBClient.CloseDB fullClient cenvAllFail).errs =
      ["Failed to close cveDB. err: cve close failed",
       "Failed to close ovalDB. err: oval close failed"] := by decide

/-- C9 counterexample: the claim says a second `CloseDB` call on the same
bundle performs no further close attempts.  `CloseDB` has a value
receiver and never clears a field, so after a first call on a bundle
holding the CVE handle, a second call still performs a (non-empty) close
attempt on that same handle. -/
theorem C9_counterexample_second_close_not_noop :
    (DBClient.CloseDB (DBClient.CloseDB cveOnlyClient cenvOK).client
        cenvOK).closeAttempts = [Kind.cve] ∧
    (DBClient.CloseDB (DBClient.CloseDB cveOnlyClient cenvOK).client
        cenvOK).closeAttempts ≠ ([] : List Kind) := by decide

/-- C9 amended: a second `CloseDB` call is not a no-op — the client value
is unchanged by the first call (value receiver, no field ever cleared),
so the second call repeats exactly the close attempts and errors of the
first. -/
theorem C9_second_close_repeats_first (d : DBClient) (cenv : CloseEnv) :
    DBClient.CloseDB (DBClient.CloseDB d cenv).client cenv =
      DBClient.CloseDB d cenv := rfl

/-- C3: if a resource reached by the run reports locked — whichever of
the five kinds it is, Critical or Optional — `NewDBClient` aborts the
whole run: nil bundle, locked = true, and a non-nil error. -/
theorem C3_locked_aborts_whole_run (cnf : DBClientConf) (env : Env) (k : Kind)
    (hr : reached k cnf env = true)
    (hl : (openResource k cnf env).locked = true) :
    (NewDBClient cnf env).dbclient = none ∧
    (NewDBClient cnf env).locked = true ∧
    (NewDBClient cnf env).err.isSome = true := by
  cases k
  case cve =>
    simp only [openResource] at hl
    simp [NewDBClient, hl]
  case oval =>
    simp only [openResource] at hl
    simp only [reached, Bool.and_eq_true, Bool.not_eq_true'] at hr
    simp [NewDBClient, hr.1, hr.2, hl]
  case gost =>
    simp only [openResource] at hl
    simp only [reached, Bool.and_eq_true, Bool.not_eq_true'] at hr
    obtain ⟨⟨h1, h2⟩, h3⟩ := hr
    simp [NewDBClient, h1, h2, h3, hl]
  case exploit =>
    simp only [openResource] at hl
    simp only [reached, Bool.and_eq_true, Bool.not_eq_true'] at hr
    obtain ⟨⟨⟨h1, h2⟩, h3⟩, h4⟩ := hr
    simp [NewDBClient, h1, h2, h3, h4, hl]
  case metasploit =>
    simp only [openResource] at hl
    simp only [reached, Bool.and_eq_true, Bool.not_eq_true'] at hr
    obtain ⟨⟨⟨⟨h1, h2⟩, h3⟩, h4⟩, h5⟩ := hr
    simp [NewDBClient, h1, h2, h3, h4, h5, hl]

/-- C3 witness: a locked Optional resource (the OVAL dictionary) aborts
the run at a concrete configuration. -/
theorem C3_locked_aborts_whole_run_witness :
    reached Kind.oval cnf0 envOvalLocked = true ∧
    (openResource Kind.oval cnf0 envOvalLocked).locked = true ∧
    ((NewDBClient cnf0 envOvalLocked).dbclient = none ∧
     (NewDBClient cnf0 envOvalLocked).locked = true ∧
     (NewDBClient cnf0 envOvalLocked).err.isSome = true) :=
  ⟨by decide, by decide,
   C3_locked_aborts_whole_run cnf0 envOvalLocked Kind.oval (by decide) (by decide)⟩

/-- C4 counterexample: the claim says a driver-reported lock is always
propagated, even with a nil error.  When the CVE driver reports locked
with a nil error and a handle, `NewCveDB` returns the handle as a
successful open with the locked flag reset to false. -/
theorem C4_counterexample_lock_dropped_on_nil_err :
    (resEnv Kind.cve envCveLockedNilErr).newDB.locked = true ∧
    (resEnv Kind.cve envCveLockedNilErr).newDB.err = none ∧
    (openResource Kind.cve cnf0 envCveLockedNilErr).attempted = true ∧
    (openResource Kind.cve cnf0 envCveLockedNilErr).locked = false ∧
    (openResource Kind.cve cnf0 envCveLockedNilErr).driver = some Kind.cve := by
  decide

/-- C4 amended: for every resource kind, when the external open was
invoked and the driver reported locked = true together with a non-nil
error, the factory propagates the locked outcome; with a nil error the
lock flag is dropped and the open counts as successful. -/
theorem C4_amended_lock_propagated_when_err (cnf : DBClientConf) (env : Env) (k : Kind)
    (h1 : (openResource k cnf env).attempted = true)
    (h2 : (resEnv k env).newDB.locked = true)
    (h3 : (resEnv k env).newDB.err.isSome = true) :
    (openResource k cnf env).locked = true := by
  cases k <;> simp only [resEnv, openResource] at h1 h2 h3 ⊢
  exacts [NewCveDB_locked_of_drv cnf env h2 h3 h1,
    NewOvalDB_locked_of_drv cnf env h2 h3 h1,
    NewGostDB_locked_of_drv cnf env h2 h3 h1,
    NewExploitDB_locked_of_drv cnf env h2 h3 h1,
    NewMetasploitDB_locked_of_drv cnf env h2 h3 h1]

/-- C4 witness: a locked OVAL driver with a non-nil error is propagated
at a concrete configuration. -/
theorem C4_amended_lock_propagated_witness :
    (openResource Kind.oval cnf0 envOvalLocked).attempted = true ∧
    (resEnv Kind.oval envOvalLocked).newDB.locked = true ∧
    (resEnv Kind.oval envOvalLocked).newDB.err.isSome = true ∧
    (openResource Kind.oval cnf0 envOvalLocked).locked = true :=
  ⟨by decide, by decide, by decide,
   C4_amended_lock_propagated_when_err cnf0 envOvalLocked Kind.oval (by decide)
     (by decide) (by decide)⟩

/-- C5: if the Critical CVE-dictionary open fails without the locked
flag, `NewDBClient` returns a nil bundle with exactly that error, and no
Optional resource's open is attempted (the CVE open is the only attempted
one). -/
theorem C5_critical_openfailed_aborts (cnf : DBClientConf) (env : Env) (e : String)
    (hl : (NewCveDB cnf env).locked = false)
    (he : (NewCveDB cnf env).err = some e) :
    (NewDBClient cnf env).dbclient = none ∧
    (NewDBClient cnf env).err = some e ∧
    (NewDBClient cnf env).attempts = [Kind.cve] := by
  have hatt : (NewCveDB cnf env).attempted = true :=
    NewCveDB_attempted_of_err cnf env (by simp [he])
  simp [NewDBClient, attOf, hl, he, hatt]

/-- C5 witness: a corrupt CVE sqlite3 file aborts the run with the
wrapped cause; only the CVE open was attempted. -/
theorem C5_critical_openfailed_aborts_witness :
    (NewCveDB cnf0 envCveFail).locked = false ∧
    (NewCveDB cnf0 envCveFail).err =
      some "Failed to init CVE DB. err: file is not a database, path: /cve.sqlite3" ∧
    ((NewDBClient cnf0 envCveFail).dbclient = none ∧
     (NewDBClient cnf0 envCveFail).err =
       some "Failed to init CVE DB. err: file is not a database, path: /cve.sqlite3" ∧
     (NewDBClient cnf0 envCveFail).attempts = [Kind.cve]) :=
  ⟨by decide, by decide,
   C5_critical_openfailed_aborts cnf0 envCveFail _ (by decide) (by decide)⟩

/-- C6: if an Optional resource's open fails without the locked flag
while nothing else aborts the run, `NewDBClient` does not abort: the
result is a bundle with nil error and not locked, the failing resource's
slot is nil, a warning is recorded for it, and every resource whose open
would run is still attempted. -/
theorem C6_optional_openfailed_degrades (cnf : DBClientConf) (env : Env) (k : Kind)
    (hk : k ∈ optionalKinds)
    (hnl : ∀ j, (openResource j cnf env).locked = false)
    (hce : (NewCveDB cnf env).err = none)
    (he : (openResource k cnf env).err.isSome = true) :
    (NewDBClient cnf env).err = none ∧
    (NewDBClient cnf env).locked = false ∧
    ((NewDBClient cnf env).dbclient.map fun b => slotOf b k) = some none ∧
    k ∈ (NewDBClient cnf env).warns ∧
    (NewDBClient cnf env).attempts =
      allKinds.filter (fun j => (openResource j cnf env).attempted) := by
  have hc := hnl Kind.cve
  have ho := hnl Kind.oval
  have hg := hnl Kind.gost
  have hx := hnl Kind.exploit
  have hm := hnl Kind.metasploit
  simp only [openResource] at hc ho hg hx hm
  have hatts : (NewDBClient cnf env).attempts =
      allKinds.filter (fun j => (openResource j cnf env).attempted) := by
    cases h1 : (NewCveDB cnf env).attempted <;>
    cases h2 : (NewOvalDB cnf env).attempted <;>
    cases h3 : (NewGostDB cnf env).attempted <;>
    cases h4 : (NewExploitDB cnf env).attempted <;>
    cases h5 : (NewMetasploitDB cnf env).attempted <;>
      simp [NewDBClient, attOf, allKinds, openResource, List.filter,
            hc, hce, ho, hg, hx, hm, h1, h2, h3, h4, h5]
  simp [optionalKinds] at hk
  rcases hk with rfl | rfl | rfl | rfl <;> simp only [openResource] at he
  · exact ⟨by simp [NewDBClient, hc, hce, ho, hg, hx, hm],
      by simp [NewDBClient, hc, hce, ho, hg, hx, hm],
      by simp [NewDBClient, slotOf, hc, hce, ho, hg, hx, hm,
        NewOvalDB_driver_none_of_err cnf env he],
      by simp [NewDBClient, hc, hce, ho, hg, hx, hm, he], hatts⟩
  · exact ⟨by simp [NewDBClient, hc, hce, ho, hg, hx, hm],
      by simp [NewDBClient, hc, hce, ho, hg, hx, hm],
      by simp [NewDBClient, slotOf, hc, hce, ho, hg, hx, hm,
        NewGostDB_driver_none_of_err cnf env he],
      by simp [NewDBClient, hc, hce, ho, hg, hx, hm, he], hatts⟩
  · exact ⟨by simp [NewDBClient, hc, hce, ho, hg, hx, hm],
      by simp [NewDBClient, hc, hce, ho, hg, hx, hm],
      by simp [NewDBClient, slotOf, hc, hce, ho, hg, hx, hm,
        NewExploitDB_driver_none_of_err cnf env he],
      by simp [NewDBClient, hc, hce, ho, hg, hx, hm, he], hatts⟩
  · exact ⟨by simp [NewDBClient, hc, hce, ho, hg, hx, hm],
      by simp [NewDBClient, hc, hce, ho, hg, hx, hm],
      by simp [NewDBClient, slotOf, hc, hce, ho, hg, hx, hm,
        NewMetasploitDB_driver_none_of_err cnf env he],
      by simp [NewDBClient, hc, hce, ho, hg, hx, hm, he], hatts⟩

/-- C6 witness: a corrupt gost file degrades — the run still returns a
bundle whose gost slot is nil, with a warning, all five opens attempted. -/
theorem C6_optional_openfailed_degrades_witness :
    Kind.gost ∈ optionalKinds ∧
    (∀ j, (openResource j cnf0 envGostFail).locked = false) ∧
    (NewCveDB cnf0 envGostFail).err = none ∧
    (openResource Kind.gost cnf0 envGostFail).err.isSome = true ∧
    ((NewDBClient cnf0 envGostFail).err = none ∧
     (NewDBClient cnf0 envGostFail).locked = false ∧
     ((NewDBClient cnf0 envGostFail).dbclient.map fun b => slotOf b Kind.gost)
       = some none ∧
     Kind.gost ∈ (NewDBClient cnf0 envGostFail).warns ∧
     (NewDBClient cnf0 envGostFail).attempts =
       allKinds.filter (fun j => (openResource j cnf0 envGostFail).attempted)) :=
  ⟨by decide, by decide, by decide, by decide,
   C6_optional_openfailed_degrades cnf0 envGostFail Kind.gost (by decide) (by decide)
     (by decide) (by decide)⟩

/-- C8: for every resource kind with a sqlite3 backend not fetched via
HTTP, a missing local file yields the Absent outcome: nil driver, not
locked, nil error, and the external open is never invoked. -/
theorem C8_missing_sqlite_file_absent (cnf : DBClientConf) (env : Env) (k : Kind)
    (h1 : (resCnf k cnf).fetchViaHTTP = false)
    (h2 : (resCnf k cnf).typ = "sqlite3")
    (h3 : (resEnv k env).fileExists = false) :
    openResource k cnf env = ⟨none, false, none, false⟩ := by
  cases k <;> simp only [resCnf, resEnv, openResource] at h1 h2 h3 ⊢
  exacts [NewCveDB_absent cnf env h1 h2 h3, NewOvalDB_absent cnf env h1 h2 h3,
    NewGostDB_absent cnf env h1 h2 h3, NewExploitDB_absent cnf env h1 h2 h3,
    NewMetasploitDB_absent cnf env h1 h2 h3]

/-- C8 witness: the Critical CVE dictionary with a missing sqlite3 file
yields Absent at a concrete configuration. -/
theorem C8_missing_sqlite_file_absent_witness :
    (resCnf Kind.cve cnf0).fetchViaHTTP = false ∧
    (resCnf Kind.cve cnf0).typ = "sqlite3" ∧
    (resEnv Kind.cve envCveMissing).fileExists = false ∧
    openResource Kind.cve cnf0 envCveMissing = ⟨none, false, none, false⟩ :=
  ⟨by decide, by decide, by decide,
   C8_missing_sqlite_file_absent cnf0 envCveMissing Kind.cve (by decide) (by decide)
     (by decide)⟩

/-- C10: for the empty sequence of scan results, `Write` returns nil
immediately: no blob client is constructed and no object is uploaded,
for every combination of format and gzip flags. -/
theorem C10_write_empty_no_effects (w : AzureBlobWriter) (env : AzureEnv) :
    AzureBlobWriter.Write w env [] = (none, []) := rfl
